import Mathlib

/-!
Verification of the Provify backend (bug lifecycle store with deduplication and
multi-target verification consensus engine).

The Lean definitions below are a shallow embedding of the Python source:
  - issue_manager.py : `IssueManager` (bug store, deduplication, persistence)
  - api.py           : FastAPI endpoints (intake, query, PATCH update, verification
                       fan-out and consensus, summary retrieval)
  - models.py        : pydantic data model
  - bug_verifier.py / device_pool.py : oracle client and device registry, treated
                       as opaque parameters where their internals are external.

Machine-level details mirrored faithfully:
  - ids are the first 8 hex characters of SHA-256 over an UTF-8 encoded string;
    SHA-256 is embedded in full over `Nat` bytes/words (reduced mod 2 ^ 32);
  - Python `dict` insertion order is modelled by association-list order, with
    in-place replacement on key reuse;
  - Python `str.split()` / `str.lower()` / `str.strip()` / `str.title()` are
    embedded for the ASCII fragment the repository exercises;
  - Python truthiness of optional strings and of empty strings is embedded as
    explicit emptiness tests;
  - float comparisons `>= 0.8` / `>= 0.5` on agreement rates are embedded over
    `ℚ` (the exact values the source divides are small-integer ratios);
  - raised exceptions (`ValueError`, HTTP 404) are embedded as `Except.error`,
    raised before any state mutation, so the caller keeps the unchanged store.
-/

set_option maxRecDepth 100000

namespace Provify

/-! ### Python string primitives (ASCII fragment) -/

/-- Whitespace as recognised by Python `str.split()` / `str.strip()`
(ASCII fragment: space, tab, newline, carriage return, vertical tab, form feed). -/
def isPySpace (c : Char) : Bool :=
  c = ' ' ∨ c = '\t' ∨ c = '\n' ∨ c = '\r' ∨ c = Char.ofNat 11 ∨ c = Char.ofNat 12

/-- Helper for `pySplit`: walk the characters, accumulating the current word
reversed; whitespace closes the word, and empty words are dropped. -/
def pySplitChars : List Char → List Char → List String
  | [], acc => if acc.isEmpty then [] else [String.mk acc.reverse]
  | c :: cs, acc =>
      if isPySpace c then
        if acc.isEmpty then pySplitChars cs []
        else String.mk acc.reverse :: pySplitChars cs []
      else pySplitChars cs (c :: acc)

/-- Python `str.split()` with no separator: split on whitespace runs, drop empties. -/
def pySplit (s : String) : List String :=
  pySplitChars s.data []

/-- Python `str.lower()` (ASCII fragment). -/
def pyLower (s : String) : String :=
  String.mk (s.data.map Char.toLower)

/-- Python `str.strip()` (ASCII whitespace). -/
def pyStrip (s : String) : String :=
  String.mk (((s.data.dropWhile isPySpace).reverse.dropWhile isPySpace).reverse)

/-- Helper for `pyTitle`: the Boolean records whether the previous character
was alphabetic (Python: cased). -/
def pyTitleAux : Bool → List Char → List Char
  | _, [] => []
  | prevAlpha, c :: cs =>
      (if prevAlpha then c.toLower else c.toUpper) :: pyTitleAux c.isAlpha cs

/-- Python `str.title()` (ASCII fragment): uppercase a letter that follows a
non-letter, lowercase a letter that follows a letter. -/
def pyTitle (s : String) : String :=
  String.mk (pyTitleAux false s.data)

/-- Python slice `s[:n]` over code points. -/
def pySlice (s : String) (n : Nat) : String :=
  String.mk (s.data.take n)

/-- Python `sep.join(parts)`. -/
def pyJoin (sep : String) : List String → String
  | [] => ""
  | [x] => x
  | x :: y :: rest => x ++ sep ++ pyJoin sep (y :: rest)

/-- UTF-8 encoding of one code point (Python `str.encode()`), bytes as `Nat`. -/
def charUtf8 (c : Char) : List Nat :=
  let n := c.toNat
  if n < 128 then [n]
  else if n < 2048 then [192 + n / 64, 128 + n % 64]
  else if n < 65536 then [224 + n / 4096, 128 + n / 64 % 64, 128 + n % 64]
  else [240 + n / 262144, 128 + n / 4096 % 64, 128 + n / 64 % 64, 128 + n % 64]

/-- UTF-8 encoding of a string (Python `str.encode()`). -/
def utf8Bytes (s : String) : List Nat :=
  (s.data.map charUtf8).flatten

/-! ### SHA-256 (hashlib.sha256), words as `Nat` reduced mod 2 ^ 32 -/

/-- Truncate to a 32-bit word. -/
def w32 (n : Nat) : Nat := n % 4294967296

/-- 32-bit right rotation. -/
def rotr (n x : Nat) : Nat := w32 ((x >>> n) ||| (x <<< (32 - n)))

/-- SHA-256 round constants. -/
def sha256K : List Nat := [
  1116352408, 1899447441, 3049323471, 3921009573, 961987163, 1508970993, 2453635748, 2870763221,
  3624381080, 310598401, 607225278, 1426881987, 1925078388, 2162078206, 2614888103, 3248222580,
  3835390401, 4022224774, 264347078, 604807628, 770255983, 1249150122, 1555081692, 1996064986,
  2554220882, 2821834349, 2952996808, 3210313671, 3336571891, 3584528711, 113926993, 338241895,
  666307205, 773529912, 1294757372, 1396182291, 1695183700, 1986661051, 2177026350, 2456956037,
  2730485921, 2820302411, 3259730800, 3345764771, 3516065817, 3600352804, 4094571909, 275423344,
  430227734, 506948616, 659060556, 883997877, 958139571, 1322822218, 1537002063, 1747873779,
  1955562222, 2024104815, 2227730452, 2361852424, 2428436474, 2756734187, 3204031479, 3329325298]

/-- SHA-256 initial hash value. -/
def sha256H0 : List Nat := [
  1779033703, 3144134277, 1013904242, 2773480762, 1359893119, 2600822924, 528734635, 1541459225]

/-- Working state of the SHA-256 compression function. -/
structure Sha256State where
  a : Nat
  b : Nat
  c : Nat
  d : Nat
  e : Nat
  f : Nat
  g : Nat
  h : Nat

/-- One SHA-256 compression round with round constant `k` and schedule word `w`. -/
def sha256Round (st : Sha256State) (k w : Nat) : Sha256State :=
  let s1 := rotr 6 st.e ^^^ rotr 11 st.e ^^^ rotr 25 st.e
  let ch := (st.e &&& st.f) ^^^ ((4294967295 - st.e) &&& st.g)
  let temp1 := w32 (st.h + s1 + ch + k + w)
  let s0 := rotr 2 st.a ^^^ rotr 13 st.a ^^^ rotr 22 st.a
  let maj := (st.a &&& st.b) ^^^ (st.a &&& st.c) ^^^ (st.b &&& st.c)
  let temp2 := w32 (s0 + maj)
  { a := w32 (temp1 + temp2), b := st.a, c := st.b, d := st.c,
    e := w32 (st.d + temp1), f := st.e, g := st.f, h := st.g }

/-- Extend the 16-word message block by `fuel` schedule words (48 for SHA-256). -/
def sha256Extend : Nat → List Nat → List Nat
  | 0, w => w
  | fuel + 1, w =>
      let i := w.length
      let x15 := w.getD (i - 15) 0
      let x2 := w.getD (i - 2) 0
      let s0 := rotr 7 x15 ^^^ rotr 18 x15 ^^^ (x15 >>> 3)
      let s1 := rotr 17 x2 ^^^ rotr 19 x2 ^^^ (x2 >>> 10)
      sha256Extend fuel (w ++ [w32 (w.getD (i - 16) 0 + s0 + w.getD (i - 7) 0 + s1)])

/-- Compress one 16-word block into the running 8-word hash value. -/
def sha256Compress (h8 : List Nat) (block : List Nat) : List Nat :=
  let w := sha256Extend 48 block
  let init : Sha256State :=
    { a := h8.getD 0 0, b := h8.getD 1 0, c := h8.getD 2 0, d := h8.getD 3 0,
      e := h8.getD 4 0, f := h8.getD 5 0, g := h8.getD 6 0, h := h8.getD 7 0 }
  let fin := (sha256K.zip w).foldl (fun st kw => sha256Round st kw.1 kw.2) init
  [w32 (h8.getD 0 0 + fin.a), w32 (h8.getD 1 0 + fin.b), w32 (h8.getD 2 0 + fin.c),
   w32 (h8.getD 3 0 + fin.d), w32 (h8.getD 4 0 + fin.e), w32 (h8.getD 5 0 + fin.f),
   w32 (h8.getD 6 0 + fin.g), w32 (h8.getD 7 0 + fin.h)]

/-- SHA-256 padding: append 0x80, zeros, and the 64-bit big-endian bit length. -/
def sha256Pad (m : List Nat) : List Nat :=
  let L := m.length
  let zeros := (119 - L % 64) % 64
  let bl := 8 * L
  m ++ 128 :: List.replicate zeros 0 ++
    [bl >>> 56 % 256, bl >>> 48 % 256, bl >>> 40 % 256, bl >>> 32 % 256,
     bl >>> 24 % 256, bl >>> 16 % 256, bl >>> 8 % 256, bl % 256]

/-- Group bytes into 32-bit big-endian words. -/
def bytesToWords : List Nat → List Nat
  | b0 :: b1 :: b2 :: b3 :: rest =>
      (b0 * 16777216 + b1 * 65536 + b2 * 256 + b3) :: bytesToWords rest
  | _ => []

/-- Split a word stream into 16-word blocks (`fuel` bounds the recursion). -/
def chunk16 : Nat → List Nat → List (List Nat)
  | 0, _ => []
  | _, [] => []
  | fuel + 1, ws => ws.take 16 :: chunk16 fuel (ws.drop 16)

/-- SHA-256 digest of a byte list, as eight 32-bit words. -/
def sha256Words (msg : List Nat) : List Nat :=
  let ws := bytesToWords (sha256Pad msg)
  (chunk16 ws.length ws).foldl sha256Compress sha256H0

/-- Lowercase hexadecimal digit. -/
def hexDigit (n : Nat) : Char :=
  Char.ofNat (if n < 10 then 48 + n else 87 + n)

/-- Eight lowercase hex digits of a 32-bit word. -/
def wordHexChars (x : Nat) : List Char :=
  [hexDigit (x / 268435456 % 16), hexDigit (x / 16777216 % 16),
   hexDigit (x / 1048576 % 16), hexDigit (x / 65536 % 16),
   hexDigit (x / 4096 % 16), hexDigit (x / 256 % 16),
   hexDigit (x / 16 % 16), hexDigit (x % 16)]

/-- `hashlib.sha256(bytes).hexdigest()`. -/
def sha256Hex (msg : List Nat) : String :=
  String.mk (((sha256Words msg).map wordHexChars).flatten)

/-! ### Data model (models.py) -/

/-- models.py `VerificationStatus`. -/
inductive VerificationStatus where
  | pending
  | verified
  | not_reproducible
  | fixed
deriving DecidableEq

/-- models.py `VerificationSummary`. -/
structure VerificationSummary where
  timestamp : String
  status : String
  steps : List String
  result : String
  devices_tested : Nat
  reproduced : Nat
  not_reproduced : Nat
  confidence : String
  summary : String
  device_name : String
deriving DecidableEq

/-- models.py `DeveloperBug`. `severity` is `none` until the resolver assigns it;
`created_at` is passed in explicitly where the source reads the current time. -/
structure DeveloperBug where
  id : String
  app_name : String
  app_package : String
  bug : String
  created_at : String
  status : VerificationStatus
  severity : Option Nat
  last_verified : Option String
  notes : String
  verification_summary : Option VerificationSummary
deriving DecidableEq

/-- models.py `BugInput` (also api.py `BugCreateRequest`). -/
structure BugInput where
  app_name : String
  app_package : Option String
  bug : String
deriving DecidableEq

/-- models.py `VerificationResult` (outcome of one oracle invocation). -/
structure VerificationResult where
  success : Bool
  steps_executed : List String
  observations : String
deriving DecidableEq

/-! ### The store (issue_manager.py `IssueManager`)

`IssueManager.bugs` is a Python `dict` keyed by `bug.id`; we model it as the
list of its values in insertion order.  `persisted` models the contents of
`developer.json`: `_save_developer_bugs` rewrites it with the full collection
sorted by `created_at` descending (Python `list.sort(reverse=True)` is stable;
so is `List.insertionSort`). -/

/-- The relation `_save_developer_bugs` sorts by: `created_at` descending. -/
def createdGe (a b : DeveloperBug) : Prop := b.created_at ≤ a.created_at

instance : DecidableRel createdGe := fun a b => inferInstanceAs (Decidable (_ ≤ _))

/-- `_save_developer_bugs`: the persisted representation, newest first. -/
def sortDesc (l : List DeveloperBug) : List DeveloperBug :=
  l.insertionSort createdGe

/-- In-memory collection plus the persisted `developer.json` image. -/
structure Store where
  bugs : List DeveloperBug
  persisted : List DeveloperBug
deriving DecidableEq

/-- Empty store (fresh `IssueManager` with no `developer.json`). -/
def emptyStore : Store := { bugs := [], persisted := [] }

/-- `self.bugs[bug_id]` lookup (dict key access). -/
def findBug (l : List DeveloperBug) (bug_id : String) : Option DeveloperBug :=
  l.find? (fun b => b.id == bug_id)

/-- `bug_id in self.bugs` / `self.bugs[bug_id]` on the store. -/
def getBug (st : Store) (bug_id : String) : Option DeveloperBug :=
  findBug st.bugs bug_id

/-- `self.bugs[bug_id] = new_bug` (dict assignment): replace in place if the
key is present, append otherwise. -/
def dictInsert : List DeveloperBug → DeveloperBug → List DeveloperBug
  | [], b => [b]
  | x :: xs, b => if x.id = b.id then b :: xs else x :: dictInsert xs b

/-- In-place mutation of the bug stored under `bug_id` (Python mutates the
object held in the dict, leaving its position unchanged). -/
def updateBugList : List DeveloperBug → String → (DeveloperBug → DeveloperBug) → List DeveloperBug
  | [], _, _ => []
  | x :: xs, bug_id, f => if x.id = bug_id then f x :: xs else x :: updateBugList xs bug_id f

/-! ### Similarity, identity, deduplication (issue_manager.py) -/

/-- Word set of a lowercased description (`text.lower().split()`). -/
def tokens (s : String) : Finset String :=
  (pySplit (pyLower s)).toFinset

/-- `IssueManager._compute_similarity`: Jaccard index of the two word sets,
`0.0` if either set is empty. -/
def compute_similarity (text1 text2 : String) : ℚ :=
  let words1 := tokens text1
  let words2 := tokens text2
  if words1 = ∅ ∨ words2 = ∅ then 0
  else ((words1 ∩ words2).card : ℚ) / ((words1 ∪ words2).card : ℚ)

/-- The dedup predicate of `IssueManager.find_duplicate`: same `app_package`
and similarity strictly above `0.7`. -/
def dupPred (app_package bug : String) (existing : DeveloperBug) : Bool :=
  existing.app_package == app_package &&
    decide ((7 : ℚ) / 10 < compute_similarity existing.bug bug)

/-- `IssueManager.find_duplicate`: first stored bug (insertion order) with the
same `app_package` and similarity above the threshold. -/
def find_duplicate (bugs : List DeveloperBug) (app_package bug : String) : Option DeveloperBug :=
  bugs.find? (dupPred app_package bug)

/-- `IssueManager._generate_id`: 8-hex-character prefix of the SHA-256 of
`app_package`, a colon, and the first 100 characters of the lowercased
description. -/
def generate_id (app_package bug : String) : String :=
  let content := app_package ++ ":" ++ pySlice (pyLower bug) 100
  pySlice (sha256Hex (utf8Bytes content)) 8

/-- issue_manager.py `normalize_app_name`. -/
def normalize_app_name (app_name : String) : String :=
  pyTitle (pyStrip app_name)

/-- The deterministic fallback of `resolve_app_package` when no API key is set:
`com.` plus the lowercased app name with spaces and hyphens removed. -/
def resolve_app_package_fallback (app_name : String) : String :=
  "com." ++ String.mk (((pyLower app_name).data.filter (fun c => c ≠ ' ')).filter (fun c => c ≠ '-'))

/-- Package resolution step of `add_bug` (lines 137-139): use the supplied
package if truthy, otherwise call the opaque resolver on the normalized name.
`resolvePkg` abstracts the LLM-backed `resolve_app_package`. -/
def resolve_pkg_field (resolvePkg : String → String) (inp : BugInput) : String :=
  match inp.app_package with
  | none => resolvePkg (normalize_app_name inp.app_name)
  | some p => if p = "" then resolvePkg (normalize_app_name inp.app_name) else p

/-- `IssueManager.add_bug`.  `resolvePkg` and `scoreSeverity` abstract the two
opaque LLM-backed resolvers (`resolve_app_package`, `analyze_bug_severity`);
`now` is the creation timestamp (`datetime.now().isoformat()`).  Returns the
created-or-existing bug together with the store after the call. -/
def add_bug (resolvePkg : String → String) (scoreSeverity : String → Nat)
    (st : Store) (inp : BugInput) (now : String) : DeveloperBug × Store :=
  let app_name := normalize_app_name inp.app_name
  let app_package := resolve_pkg_field resolvePkg inp
  match find_duplicate st.bugs app_package inp.bug with
  | some existing => (existing, st)
  | none =>
      let bug_id := generate_id app_package inp.bug
      let severity := scoreSeverity inp.bug
      let new_bug : DeveloperBug :=
        { id := bug_id, app_name := app_name, app_package := app_package,
          bug := inp.bug, created_at := now, status := .pending,
          severity := some severity, last_verified := none, notes := "",
          verification_summary := none }
      let bugs := dictInsert st.bugs new_bug
      (new_bug, { bugs := bugs, persisted := sortDesc bugs })

/-- Field update performed by `IssueManager.update_status` on the stored bug:
set `status`, stamp `last_verified`, overwrite `notes` only when non-empty. -/
def applyStatusUpdate (status : VerificationStatus) (notes now : String)
    (b : DeveloperBug) : DeveloperBug :=
  { b with status := status, last_verified := some now,
           notes := if notes = "" then b.notes else notes }

/-- `IssueManager.update_status`: raises `ValueError` (here `.error`) for an
unknown id, before any mutation; otherwise updates the bug and persists. -/
def update_status (st : Store) (bug_id : String) (status : VerificationStatus)
    (notes : String) (now : String) : Except String Store :=
  if (getBug st bug_id).isNone then
    .error ("Bug " ++ bug_id ++ " not found")
  else
    let bugs := updateBugList st.bugs bug_id (applyStatusUpdate status notes now)
    .ok { bugs := bugs, persisted := sortDesc bugs }

/-- `IssueManager.mark_fixed`. -/
def mark_fixed (st : Store) (bug_id : String) (now : String) : Except String Store :=
  update_status st bug_id .fixed "" now

/-- `IssueManager.get_all_bugs`: all bugs sorted by `created_at`, newest first. -/
def get_all_bugs (st : Store) : List DeveloperBug :=
  sortDesc st.bugs

/-- `IssueManager.get_by_status`: filter by status, insertion order. -/
def get_by_status (st : Store) (status : VerificationStatus) : List DeveloperBug :=
  st.bugs.filter (fun b => b.status == status)

/-- `IssueManager.get_by_app`: filter by package, insertion order. -/
def get_by_app (st : Store) (app_package : String) : List DeveloperBug :=
  st.bugs.filter (fun b => b.app_package == app_package)

/-- Modelled from the spec: `IssueManager.update_verification_summary` is
called from api.py (line 347) but not defined in issue_manager.py.  Spec §4.3:
`AttachVerificationSummary(id, summary) -> void | NotFound` replaces
`latest_verification_summary` wholesale and persists; against an unknown id it
signals a not-found condition and must not create a record. -/
def update_verification_summary (st : Store) (bug_id : String)
    (vs : VerificationSummary) : Except String Store :=
  if (getBug st bug_id).isNone then
    .error ("Bug " ++ bug_id ++ " not found")
  else
    let bugs := updateBugList st.bugs bug_id
      (fun b => { b with verification_summary := some vs })
    .ok { bugs := bugs, persisted := sortDesc bugs }

/-- Modelled from the spec: `IssueManager.get_verification_summary` is called
from api.py (line 209) but not defined in issue_manager.py.  It returns the
stored bug's `latest_verification_summary`, if any. -/
def get_verification_summary (st : Store) (bug_id : String) : Option VerificationSummary :=
  (getBug st bug_id).bind (fun b => b.verification_summary)

/-! ### API layer (api.py) -/

/-- One entry of `device_pool.get_all()`. -/
structure DeviceInfo where
  serial : String
  name : String
deriving DecidableEq

/-- The per-device result dict built by `test_on_device` in
`verify_bug_on_all_devices`. -/
structure DeviceResult where
  device : String
  serial : String
  reproduced : Bool
  steps : List String
  observations : String
deriving DecidableEq

/-- api.py `calculate_confidence` (single-device confidence rule). -/
def calculate_confidence (success : Bool) (steps_count : Nat) : String :=
  if success then
    if steps_count ≥ 3 then "HIGH"
    else if steps_count ≥ 1 then "MEDIUM"
    else "LOW"
  else
    if steps_count ≥ 5 then "HIGH"
    else if steps_count ≥ 2 then "MEDIUM"
    else "LOW"

/-- The multi-device confidence branch of `verify_bug_on_all_devices`
(api.py lines 310-316): agreement rate `max(r, nr) / n` against the `0.8`
and `0.5` thresholds.  The source divides Python ints, so the exact value is
the rational embedded here. -/
def multi_device_confidence (reproduced not_reproduced devices_tested : Nat) : String :=
  let agreement_rate : ℚ := (max reproduced not_reproduced : ℚ) / (devices_tested : ℚ)
  if agreement_rate ≥ 8 / 10 then "HIGH"
  else if agreement_rate ≥ 5 / 10 then "MEDIUM"
  else "LOW"

/-- The inner `test_on_device` of `verify_bug_on_all_devices`.  `oracle`
abstracts `verifier.verify_bug(bug, serial)` for the bug under verification:
`.error` is a raised exception, caught here and converted to a non-reproduced
result carrying the error text. -/
def test_on_device (oracle : String → Except String VerificationResult)
    (d : DeviceInfo) : DeviceResult :=
  match oracle d.serial with
  | .ok result =>
      { device := d.name, serial := d.serial, reproduced := result.success,
        steps := result.steps_executed, observations := result.observations }
  | .error e =>
      { device := d.name, serial := d.serial, reproduced := false,
        steps := [], observations := "Error: " ++ e }

/-- The fallback steps of `verify_bug_on_all_devices` (api.py line 304). -/
def defaultSteps : List String :=
  ["Launch app", "Execute test scenario", "Observe behavior"]

/-- The JSON-ish value returned by `verify_bug_on_all_devices`. -/
structure VerifyReturn where
  status : String
  message : String
  devices_tested : Nat
  reproduced : Nat
  not_reproduced : Nat
  verification_summary : VerificationSummary
deriving DecidableEq

/-- api.py `verify_bug_on_all_devices`: fan out to every device, aggregate by
majority vote, compute confidence, update the store and attach the summary.
Returns `none` where the source raises: with zero devices the agreement-rate
division raises `ZeroDivisionError`, and an id absent from the store makes
`update_status` raise `ValueError`; in both cases the raise happens before the
corresponding mutation, so the caller keeps the prior store.  `now` is the
timestamp (`datetime.now().isoformat()`). -/
def verify_bug_on_all_devices (oracle : String → Except String VerificationResult)
    (devices : List DeviceInfo) (st : Store) (bug : DeveloperBug) (now : String) :
    Option (VerifyReturn × Store) :=
  let device_results := devices.map (test_on_device oracle)
  let devices_tested := device_results.length
  let reproduced := (device_results.filter (fun r => r.reproduced)).length
  let not_reproduced := devices_tested - reproduced
  -- `all_steps.extend(r["steps"])` guarded by `if r["steps"]` equals flattening
  let all_steps := (device_results.map (fun r => r.steps)).flatten
  let all_observations := device_results.map (fun r => "[" ++ r.device ++ "] " ++ r.observations)
  let device_names := device_results.map (fun r => r.device)
  let steps := if all_steps.isEmpty then defaultSteps else all_steps
  if devices_tested = 0 then none
  else
    let confidence :=
      if devices_tested = 1 then calculate_confidence (decide (0 < reproduced)) steps.length
      else multi_device_confidence reproduced not_reproduced devices_tested
    let bug_verified := decide (not_reproduced < reproduced)
    let status_str := if bug_verified then "verified" else "not_reproducible"
    let device_list := pyJoin ", " device_names
    let summary_text :=
      "Bug " ++ (if bug_verified then "reproduced" else "not reproduced") ++ " on " ++
      toString reproduced ++ "/" ++ toString devices_tested ++ " devices (" ++ device_list ++
      "). Executed " ++ toString steps.length ++ " verification steps. Confidence: " ++
      confidence ++ "."
    let vs : VerificationSummary :=
      { timestamp := now, status := status_str, steps := steps,
        result := pyJoin "\n\n" all_observations, devices_tested := devices_tested,
        reproduced := reproduced, not_reproduced := not_reproduced,
        confidence := confidence, summary := summary_text, device_name := device_list }
    -- the two store calls in sequence; a raised `ValueError` (`.error`, turned
    -- into `none` here) propagates and aborts the remainder
    (update_status st bug.id
        (if bug_verified then .verified else .not_reproducible) vs.result now).toOption.bind
      (fun st1 => (update_verification_summary st1 bug.id vs).toOption.map
        (fun st2 =>
          ({ status := status_str, message := summary_text,
             devices_tested := devices_tested, reproduced := reproduced,
             not_reproduced := not_reproduced, verification_summary := vs }, st2)))

/-- Truthiness of an optional string parameter (FastAPI query parameter:
absent or empty string is falsy). -/
def isTruthyOptStr : Option String → Bool
  | none => false
  | some s => !s.isEmpty

/-- api.py `get_all_bugs` endpoint (`GET /bugs`): a truthy `app_package`
filters by package only (ignoring `status`); otherwise a supplied `status`
filters by status; otherwise all bugs sorted newest first. -/
def get_all_bugs_endpoint (st : Store) (status : Option VerificationStatus)
    (app_package : Option String) : List DeveloperBug :=
  if isTruthyOptStr app_package then get_by_app st (app_package.getD "")
  else
    match status with
    | some s => get_by_status st s
    | none => get_all_bugs st

/-- api.py `update_bug` endpoint (`PATCH /bugs/bug_id`): 404 for an unknown
id; applies `update_status` only when a status is supplied (every enum member
is truthy; a missing status skips the update entirely); returns the stored
bug.  `reqNotes.getD \"\"` embeds `request.notes or \"\"`. -/
def update_bug (st : Store) (bug_id : String) (reqStatus : Option VerificationStatus)
    (reqNotes : Option String) (now : String) :
    Except String (Option DeveloperBug × Store) :=
  if (getBug st bug_id).isNone then .error "Bug not found"
  else
    match reqStatus with
    | some s =>
        match update_status st bug_id s (reqNotes.getD "") now with
        | .error e => .error e
        | .ok st1 => .ok (getBug st1 bug_id, st1)
    | none => .ok (getBug st bug_id, st)

/-- api.py `get_bug_summary` endpoint (`GET /bugs/bug_id/summary`): 404 for an
unknown id or a bug with no stored summary. -/
def get_bug_summary (st : Store) (bug_id : String) : Except String VerificationSummary :=
  if (getBug st bug_id).isNone then .error "Bug not found"
  else
    match get_verification_summary st bug_id with
    | none => .error "No verification summary found for this bug"
    | some vs => .ok vs

/-- api.py `mark_bug_fixed` endpoint (`POST /bugs/bug_id/fix`): 404 for an
unknown id, otherwise `manager.mark_fixed`. -/
def mark_bug_fixed (st : Store) (bug_id : String) (now : String) : Except String Store :=
  if (getBug st bug_id).isNone then .error "Bug not found"
  else mark_fixed st bug_id now

/-- `analyze_bug_severity` deterministic fallback when no API key is set. -/
def fallbackSeverity : String → Nat := fun _ => 3

/-- The per-device result list of one fan-out (`device_results` in
`verify_bug_on_all_devices`). -/
def deviceResults (oracle : String → Except String VerificationResult)
    (devices : List DeviceInfo) : List DeviceResult :=
  devices.map (test_on_device oracle)

/-- The `reproduced` aggregate count of one fan-out. -/
def reproducedCount (oracle : String → Except String VerificationResult)
    (devices : List DeviceInfo) : Nat :=
  ((deviceResults oracle devices).filter (fun x => x.reproduced)).length

/-- The `steps` list of one fan-out: every device's steps concatenated, or
the fixed placeholder when no device produced any. -/
def stepsCollected (oracle : String → Except String VerificationResult)
    (devices : List DeviceInfo) : List String :=
  let all_steps := ((deviceResults oracle devices).map (fun x => x.steps)).flatten
  if all_steps.isEmpty then defaultSteps else all_steps

/-! ### Concrete fixtures used by witnesses and counterexamples -/

/-- Concrete bug used by several witnesses. -/
def bugW : DeveloperBug :=
  { id := "x1", app_name := "App", app_package := "com.a", bug := "crash on login",
    created_at := "2024-01-01T00:00:00", status := .pending, severity := some 3,
    last_verified := none, notes := "old notes", verification_summary := none }

/-- Concrete one-bug store used by several witnesses. -/
def storeW : Store := { bugs := [bugW], persisted := [bugW] }

/-- Concrete summary used by the C1 witness. -/
def vsW : VerificationSummary :=
  { timestamp := "t3", status := "verified", steps := ["Launch app"],
    result := "[Pixel] saw crash", devices_tested := 1, reproduced := 1,
    not_reproduced := 0, confidence := "MEDIUM", summary := "Bug reproduced",
    device_name := "Pixel" }

/-- Two concrete bugs under the same package: `bugOld` is `Verified` and
older, `bugNew` is `Pending` and newer. -/
def bugOld : DeveloperBug :=
  { id := "idold", app_name := "App", app_package := "com.p", bug := "crash on login",
    created_at := "2024-01-01T00:00:00", status := .verified, severity := some 3,
    last_verified := some "2024-01-03T00:00:00", notes := "", verification_summary := none }

/-- See `bugOld`. -/
def bugNew : DeveloperBug :=
  { id := "idnew", app_name := "App", app_package := "com.p", bug := "upload fails",
    created_at := "2024-01-02T00:00:00", status := .pending, severity := some 2,
    last_verified := none, notes := "", verification_summary := none }

/-- Store for the C7 counterexample, insertion order oldest-first. -/
def storeC7 : Store := { bugs := [bugOld, bugNew], persisted := [bugNew, bugOld] }

/-- Three concrete devices for pipeline witnesses. -/
def devicesW : List DeviceInfo :=
  [{ serial := "s1", name := "Pixel" }, { serial := "s2", name := "Nexus" },
   { serial := "s3", name := "S10" }]

/-- Concrete oracle: two devices reproduce, one does not. -/
def oracleW : String → Except String VerificationResult := fun serial =>
  if serial = "s1" then
    .ok { success := true, steps_executed := ["open app", "upload photo", "observe crash"],
          observations := "app crashed" }
  else if serial = "s2" then
    .ok { success := true, steps_executed := ["open app"], observations := "crash observed" }
  else
    .ok { success := false, steps_executed := [], observations := "no issue seen" }

/-- Concrete oracle whose second device raises. -/
def oracleFailW : String → Except String VerificationResult := fun serial =>
  if serial = "s2" then .error "adb connection timeout"
  else .ok { success := true, steps_executed := ["open app"], observations := "crash observed" }

instance : IsTotal DeveloperBug createdGe :=
  ⟨fun a b => (le_total b.created_at a.created_at).imp id id⟩

instance : IsTrans DeveloperBug createdGe :=
  ⟨fun _ _ _ hab hbc => le_trans hbc hab⟩

/-! ### Helper lemmas about the store primitives -/

lemma findBug_eq_none {l : List DeveloperBug} {bug_id : String} :
    findBug l bug_id = none ↔ ∀ b ∈ l, b.id ≠ bug_id := by
  simp [findBug, List.find?_eq_none]

lemma findBug_updateBugList {bug_id : String} {f : DeveloperBug → DeveloperBug}
    {l : List DeveloperBug} {b : DeveloperBug} (h : findBug l bug_id = some b)
    (hf : ∀ x, (f x).id = x.id) :
    findBug (updateBugList l bug_id f) bug_id = some (f b) := by
  revert h
  induction l with
  | nil => intro h; simp [findBug] at h
  | cons x xs ih =>
      intro h
      by_cases hx : x.id = bug_id
      · have hb : x = b := by
          simpa [findBug, List.find?_cons_of_pos, hx] using h
        subst hb
        simp [findBug, updateBugList, hx, List.find?_cons_of_pos, hf]
      · have h2 : findBug xs bug_id = some b := by
          simpa [findBug, List.find?_cons_of_neg, hx] using h
        have := ih h2
        simpa [findBug, updateBugList, hx, List.find?_cons_of_neg] using this

lemma updateBugList_forall₂ (bug_id : String) (f : DeveloperBug → DeveloperBug) :
    ∀ l : List DeveloperBug,
      List.Forall₂ (fun old new => new = old ∨ old.id = bug_id) l (updateBugList l bug_id f)
  | [] => .nil
  | x :: xs => by
      unfold updateBugList
      by_cases hx : x.id = bug_id
      · rw [if_pos hx]
        exact List.Forall₂.cons (Or.inr hx) (List.forall₂_same.mpr (fun y _ => Or.inl rfl))
      · rw [if_neg hx]
        exact List.Forall₂.cons (Or.inl rfl) (updateBugList_forall₂ bug_id f xs)

lemma update_status_eq_ok {st : Store} {bug_id : String} {b : DeveloperBug}
    (s : VerificationStatus) (notes now : String) (h : getBug st bug_id = some b) :
    update_status st bug_id s notes now =
      .ok { bugs := updateBugList st.bugs bug_id (applyStatusUpdate s notes now),
            persisted := sortDesc (updateBugList st.bugs bug_id (applyStatusUpdate s notes now)) } := by
  simp [update_status, h]

lemma update_verification_summary_eq_ok {st : Store} {bug_id : String} {b : DeveloperBug}
    (vs : VerificationSummary) (h : getBug st bug_id = some b) :
    update_verification_summary st bug_id vs =
      .ok { bugs := updateBugList st.bugs bug_id (fun x => { x with verification_summary := some vs }),
            persisted := sortDesc (updateBugList st.bugs bug_id (fun x => { x with verification_summary := some vs })) } := by
  simp [update_verification_summary, h]

/-! ### C8 -/

/-- C8: `UpdateStatus` against a stored id sets the bug's status to the new
status, stamps `last_verified` with the current time, overwrites `notes` only
when the supplied notes are non-empty, leaves every other bug untouched, and
persists the collection newest-first; against an unknown id it raises
`ValueError` (modelled as `.error`) before any mutation, so no record is
created as a side effect. -/
theorem C8_update_status (st : Store) (bug_id : String) (s : VerificationStatus)
    (notes now : String) :
    (∀ b, getBug st bug_id = some b →
      ∃ st2, update_status st bug_id s notes now = .ok st2 ∧
        getBug st2 bug_id =
          some { b with status := s, last_verified := some now,
                        notes := if notes = "" then b.notes else notes } ∧
        List.Forall₂ (fun old new => new = old ∨ old.id = bug_id) st.bugs st2.bugs ∧
        st2.persisted = sortDesc st2.bugs) ∧
    (getBug st bug_id = none →
      update_status st bug_id s notes now = .error ("Bug " ++ bug_id ++ " not found")) := by
  constructor
  · intro b hb
    refine ⟨_, update_status_eq_ok s notes now hb, ?_, ?_, rfl⟩
    · exact findBug_updateBugList hb (fun x => rfl)
    · exact updateBugList_forall₂ bug_id _ st.bugs
  · intro hnone
    simp [update_status, getBug] at hnone ⊢
    simp [hnone]

/-- Witness for C8 at a concrete store: a stored id is updated, an unknown id
signals not-found. -/
theorem C8_update_status_witness :
    (∃ st2, update_status storeW "x1" .verified "seen it" "t2" = .ok st2 ∧
      getBug st2 "x1" =
        some { bugW with status := .verified, last_verified := some "t2",
                         notes := if "seen it" = "" then bugW.notes else "seen it" } ∧
      List.Forall₂ (fun old new => new = old ∨ old.id = "x1") storeW.bugs st2.bugs ∧
      st2.persisted = sortDesc st2.bugs) ∧
    update_status storeW "zz" .verified "seen it" "t2" = .error ("Bug " ++ "zz" ++ " not found") := by
  exact ⟨(C8_update_status storeW "x1" .verified "seen it" "t2").1 bugW (by rfl),
         (C8_update_status storeW "zz" .verified "seen it" "t2").2 (by rfl)⟩

/-! ### C10 -/

/-- C10: a PATCH request that supplies notes but no status leaves the bug and
the whole store (including the persisted image) entirely unchanged, and
returns the stored bug as is — notes can only be written together with a
status value. -/
theorem C10_patch_notes_only (st : Store) (bug_id : String) (reqNotes : Option String)
    (now : String) :
    ∀ b, getBug st bug_id = some b →
      update_bug st bug_id none reqNotes now = .ok (some b, st) := by
  intro b hb
  simp [update_bug, hb]

/-- Witness for C10: a notes-only PATCH on a concrete store returns the stored
bug (old notes intact) and the identical store. -/
theorem C10_patch_notes_only_witness :
    update_bug storeW "x1" none (some "new notes") "t9" = .ok (some bugW, storeW) :=
  C10_patch_notes_only storeW "x1" (some "new notes") "t9" bugW (by rfl)

/-! ### C1 -/

/-- C1: for every stored bug id and every built summary,
`AttachVerificationSummary` (modelled from the spec, being called from api.py
but absent from issue_manager.py) replaces the bug's stored verification
summary wholesale with the new one, leaves the other fields and the other
bugs untouched, persists the collection newest-first, and the summary is then
retrievable through the summary endpoint; against an unknown id it signals a
not-found condition (and, raising before any mutation, creates no record). -/
theorem C1_attach_verification_summary (st : Store) (bug_id : String)
    (vs : VerificationSummary) :
    (∀ b, getBug st bug_id = some b →
      ∃ st2, update_verification_summary st bug_id vs = .ok st2 ∧
        getBug st2 bug_id = some { b with verification_summary := some vs } ∧
        List.Forall₂ (fun old new => new = old ∨ old.id = bug_id) st.bugs st2.bugs ∧
        st2.persisted = sortDesc st2.bugs ∧
        get_bug_summary st2 bug_id = .ok vs) ∧
    (getBug st bug_id = none →
      update_verification_summary st bug_id vs = .error ("Bug " ++ bug_id ++ " not found")) := by
  constructor
  · intro b hb
    have hfound := findBug_updateBugList (f := fun x => { x with verification_summary := some vs }) hb (fun x => rfl)
    refine ⟨_, update_verification_summary_eq_ok vs hb, hfound, ?_, rfl, ?_⟩
    · exact updateBugList_forall₂ bug_id _ st.bugs
    · simp [get_bug_summary, get_verification_summary, getBug] at hfound ⊢
      simp [hfound]
  · intro hnone
    simp [update_verification_summary, getBug] at hnone ⊢
    simp [hnone]

/-- Witness for C1 at a concrete store: attach succeeds and the summary is
retrievable; an unknown id signals not-found. -/
theorem C1_attach_verification_summary_witness :
    (∃ st2, update_verification_summary storeW "x1" vsW = .ok st2 ∧
      getBug st2 "x1" = some { bugW with verification_summary := some vsW } ∧
      List.Forall₂ (fun old new => new = old ∨ old.id = "x1") storeW.bugs st2.bugs ∧
      st2.persisted = sortDesc st2.bugs ∧
      get_bug_summary st2 "x1" = .ok vsW) ∧
    update_verification_summary storeW "zz" vsW = .error ("Bug " ++ "zz" ++ " not found") := by
  exact ⟨(C1_attach_verification_summary storeW "x1" vsW).1 bugW (by rfl),
         (C1_attach_verification_summary storeW "zz" vsW).2 (by rfl)⟩

/-! ### C2 -/

/-- C2 counterexample: the claim says no public operation ever sets `status`
back to `Pending`.  Starting from an empty store and using only public
operations — intake, a verification outcome setting `Verified`, then a PATCH
supplying `status = pending` — the PATCH succeeds and the stored bug is
`Pending` again, although it was `Verified` just before. -/
theorem C2_counterexample :
    let r1 := add_bug resolve_app_package_fallback fallbackSeverity emptyStore
      { app_name := "App", app_package := some "com.a", bug := "crash on login" } "t1"
    ((update_status r1.2 r1.1.id .verified "reproduced on device" "t2").toOption.bind
      (fun st2 =>
        ((update_bug st2 r1.1.id (some .pending) none "t3").toOption.map
          (fun p =>
            ((getBug st2 r1.1.id).map (fun b => b.status),
             p.1.map (fun b => b.status),
             (getBug p.2 r1.1.id).map (fun b => b.status)))))) =
      some (some .verified, some .pending, some .pending) := by
  decide

/-- C2 as amended: the built-in flows do move `status` along the documented
machine (a verification outcome sets `Verified` or `NotReproducible`,
mark-fixed sets `Fixed`), but the PATCH endpoint enforces no state machine at
all: it stores whatever status the request supplies — `Pending` included —
whatever the previous status was.  Stated here: for every stored bug and
every supplied status `s`, the PATCH update returns and stores the bug with
`status = s`. -/
theorem C2_patch_sets_any_status (st : Store) (bug_id : String)
    (s : VerificationStatus) (reqNotes : Option String) (now : String) :
    ∀ b, getBug st bug_id = some b →
      ∃ b2 st2, update_bug st bug_id (some s) reqNotes now = .ok (some b2, st2) ∧
        b2.status = s ∧ getBug st2 bug_id = some b2 := by
  intro b hb
  have hok := update_status_eq_ok s (reqNotes.getD "") now hb
  have hfound : getBug
      { bugs := updateBugList st.bugs bug_id (applyStatusUpdate s (reqNotes.getD "") now),
        persisted := sortDesc (updateBugList st.bugs bug_id (applyStatusUpdate s (reqNotes.getD "") now)) }
      bug_id = some (applyStatusUpdate s (reqNotes.getD "") now b) :=
    findBug_updateBugList hb (fun x => rfl)
  refine ⟨applyStatusUpdate s (reqNotes.getD "") now b, _, ?_, rfl, hfound⟩
  simp [update_bug, hb, hok, hfound]

/-- Witness for C2 as amended: a concrete PATCH carrying `pending` is stored. -/
theorem C2_patch_sets_any_status_witness :
    ∃ b2 st2, update_bug storeW "x1" (some .pending) none "t3" = .ok (some b2, st2) ∧
      b2.status = .pending ∧ getBug st2 "x1" = some b2 :=
  C2_patch_sets_any_status storeW "x1" .pending none "t3" bugW (by rfl)

section RatComputation

/- Batteries marks the `Rat` arithmetic `@[irreducible]`; concrete evaluation
(`decide`) of the embedded similarity and agreement-rate comparisons needs
them unfolded. -/
attribute [local semireducible] Rat.mul Rat.inv Rat.add Rat.sub

/-! ### Similarity lemmas (for C3 and C6) -/

lemma compute_similarity_self {d : String} (h : tokens d ≠ ∅) :
    compute_similarity d d = 1 := by
  unfold compute_similarity
  rw [if_neg (by simpa using h)]
  rw [Finset.inter_self, Finset.union_self]
  exact div_self (Nat.cast_ne_zero.mpr (fun hc => h (Finset.card_eq_zero.mp hc)))

lemma find?_dictInsert (p : DeveloperBug → Bool) (b : DeveloperBug) :
    ∀ l : List DeveloperBug, (∀ x ∈ l, p x = false) → p b = true →
      (dictInsert l b).find? p = some b
  | [], _, hb => by simp [dictInsert, List.find?_cons_of_pos, hb]
  | x :: xs, hl, hb => by
      unfold dictInsert
      by_cases hx : x.id = b.id
      · rw [if_pos hx]
        exact List.find?_cons_of_pos _ hb
      · rw [if_neg hx]
        rw [List.find?_cons_of_neg _ (by simp [hl x (by simp)])]
        exact find?_dictInsert p b xs (fun y hy => hl y (by simp [hy])) hb

/-! ### C6 -/

/-- C6 counterexample: the claim says a second intake with the same arguments
returns the existing record with no field mutated.  With a description whose
word set is empty (here the empty description), `_compute_similarity` returns
`0.0`, dedup never fires, and the second intake rebuilds the record under the
same id: the returned bug carries the second timestamp, not the stored one,
and the stored record has been replaced. -/
theorem C6_counterexample :
    let inp : BugInput := { app_name := "App", app_package := some "com.a", bug := "" }
    let r1 := add_bug resolve_app_package_fallback fallbackSeverity emptyStore inp "t1"
    let r2 := add_bug resolve_app_package_fallback fallbackSeverity r1.2 inp "t2"
    r2.1.id = r1.1.id ∧ r2.1 ≠ r1.1 ∧ r1.1.created_at = "t1" ∧ r2.1.created_at = "t2" ∧
    getBug r2.2 r1.1.id = some r2.1 := by
  decide

/-- C6 as amended: for every description whose word set is non-empty, intake
is idempotent — the second call with the same arguments returns the very bug
the first call returned and leaves the store exactly as the first call left
it — and, in general, whenever dedup finds an existing near-duplicate
(similarity above `0.7`, same package), intake returns that record and leaves
the store unchanged.  The exception forced by the counterexample: a
description with no words (empty token set) never matches any stored record,
so its re-intake rebuilds the record in place instead of returning it
unchanged. -/
theorem C6_intake_idempotent (resolvePkg : String → String) (scoreSeverity : String → Nat)
    (st : Store) (inp : BugInput) (t1 t2 : String) (htok : tokens inp.bug ≠ ∅) :
    (add_bug resolvePkg scoreSeverity (add_bug resolvePkg scoreSeverity st inp t1).2 inp t2 =
      add_bug resolvePkg scoreSeverity st inp t1) ∧
    (∀ e, find_duplicate st.bugs (resolve_pkg_field resolvePkg inp) inp.bug = some e →
      add_bug resolvePkg scoreSeverity st inp t1 = (e, st)) := by
  constructor
  · cases hdup : find_duplicate st.bugs (resolve_pkg_field resolvePkg inp) inp.bug with
    | some e =>
        simp [add_bug, hdup]
    | none =>
        have hall : ∀ x ∈ st.bugs,
            dupPred (resolve_pkg_field resolvePkg inp) inp.bug x = false := by
          intro x hx
          have := List.find?_eq_none.mp hdup x hx
          simpa using this
        have hself : dupPred (resolve_pkg_field resolvePkg inp) inp.bug
            { id := generate_id (resolve_pkg_field resolvePkg inp) inp.bug,
              app_name := normalize_app_name inp.app_name,
              app_package := resolve_pkg_field resolvePkg inp,
              bug := inp.bug, created_at := t1, status := .pending,
              severity := some (scoreSeverity inp.bug), last_verified := none,
              notes := "", verification_summary := none } = true := by
          simp [dupPred, compute_similarity_self htok, decide_eq_true_eq]
          norm_num
        have hfind := find?_dictInsert
          (dupPred (resolve_pkg_field resolvePkg inp) inp.bug) _ st.bugs hall hself
        have hdup2 : List.find? (dupPred (resolve_pkg_field resolvePkg inp) inp.bug)
            st.bugs = none := hdup
        simp [add_bug, find_duplicate, hdup2, hfind]
  · intro e hdup
    simp [add_bug, hdup]

/-- Witness for C6 as amended: re-intaking a one-sentence description returns
the first call's bug and store unchanged. -/
theorem C6_intake_idempotent_witness :
    (add_bug resolve_app_package_fallback fallbackSeverity
        (add_bug resolve_app_package_fallback fallbackSeverity emptyStore
          { app_name := "App", app_package := some "com.a", bug := "crash on login" } "t1").2
        { app_name := "App", app_package := some "com.a", bug := "crash on login" } "t2" =
      add_bug resolve_app_package_fallback fallbackSeverity emptyStore
        { app_name := "App", app_package := some "com.a", bug := "crash on login" } "t1") ∧
    (∀ e, find_duplicate emptyStore.bugs
        (resolve_pkg_field resolve_app_package_fallback
          { app_name := "App", app_package := some "com.a", bug := "crash on login" })
        "crash on login" = some e →
      add_bug resolve_app_package_fallback fallbackSeverity emptyStore
        { app_name := "App", app_package := some "com.a", bug := "crash on login" } "t1" =
        (e, emptyStore)) :=
  C6_intake_idempotent resolve_app_package_fallback fallbackSeverity emptyStore
    { app_name := "App", app_package := some "com.a", bug := "crash on login" } "t1" "t2"
    (by decide)

/-! ### C3 -/

/-- C3 counterexample: the claim says two intakes under the same package with
similarity at most `0.7` always create two records with two distinct ids.
The id is an 8-hex-character SHA-256 prefix and `com.x:w28798` and
`com.x:w52038` collide on it, so the second intake — two unrelated one-word
descriptions, similarity `0` — silently replaces the first record: one record
remains, the first bug's id now denotes the second bug. -/
theorem C3_counterexample :
    let r1 := add_bug resolve_app_package_fallback fallbackSeverity emptyStore
      { app_name := "App", app_package := some "com.x", bug := "w28798" } "t1"
    let r2 := add_bug resolve_app_package_fallback fallbackSeverity r1.2
      { app_name := "App", app_package := some "com.x", bug := "w52038" } "t2"
    ¬((7 : ℚ) / 10 < compute_similarity "w28798" "w52038") ∧
    r2.2.bugs.length = 1 ∧ r2.1.id = r1.1.id ∧ r1.1 ≠ r2.1 ∧
    getBug r2.2 r1.1.id = some r2.1 := by
  decide

/-- C3 as amended: two intake calls under the same package whose descriptions
have similarity at most `0.7` create two records with two distinct ids
provided the two derived 8-hex-character SHA-256 prefixes differ; when the
prefixes collide, the second intake overwrites the first record (the
counterexample).  Stated here: from an empty store, a non-duplicate pair with
distinct derived ids yields exactly the two records, in order, with their two
distinct ids. -/
theorem C3_distinct_ids_unless_collision (resolvePkg : String → String)
    (scoreSeverity : String → Nat) (an1 an2 pkg d1 d2 t1 t2 : String) (hpkg : pkg ≠ "")
    (hsim : ¬((7 : ℚ) / 10 < compute_similarity d1 d2))
    (hid : generate_id pkg d1 ≠ generate_id pkg d2) :
    let r1 := add_bug resolvePkg scoreSeverity emptyStore
      { app_name := an1, app_package := some pkg, bug := d1 } t1
    let r2 := add_bug resolvePkg scoreSeverity r1.2
      { app_name := an2, app_package := some pkg, bug := d2 } t2
    r2.2.bugs.map (fun b => b.id) = [generate_id pkg d1, generate_id pkg d2] ∧
    r1.1.id ≠ r2.1.id := by
  have hres : resolve_pkg_field resolvePkg
      { app_name := an1, app_package := some pkg, bug := d1 } = pkg := by
    simp [resolve_pkg_field, hpkg]
  have hres2 : resolve_pkg_field resolvePkg
      { app_name := an2, app_package := some pkg, bug := d2 } = pkg := by
    simp [resolve_pkg_field, hpkg]
  have hdup2 : dupPred pkg d2
      { id := generate_id pkg d1, app_name := normalize_app_name an1,
        app_package := pkg, bug := d1, created_at := t1, status := .pending,
        severity := some (scoreSeverity d1), last_verified := none,
        notes := "", verification_summary := none } = false := by
    simp [dupPred, decide_eq_true_eq]
    exact not_lt.mp hsim
  simp [add_bug, hres, hres2, find_duplicate, emptyStore, dictInsert,
        List.find?_cons_of_neg, hdup2, hid, Ne.symm hid]

/-- Witness for C3 as amended: two unrelated descriptions whose derived ids
differ produce two records with the two distinct ids. -/
theorem C3_distinct_ids_witness :
    let r1 := add_bug resolve_app_package_fallback fallbackSeverity emptyStore
      { app_name := "App", app_package := some "com.a", bug := "crash" } "t1"
    let r2 := add_bug resolve_app_package_fallback fallbackSeverity r1.2
      { app_name := "App", app_package := some "com.a", bug := "hang" } "t2"
    r2.2.bugs.map (fun b => b.id) = [generate_id "com.a" "crash", generate_id "com.a" "hang"] ∧
    r1.1.id ≠ r2.1.id :=
  C3_distinct_ids_unless_collision resolve_app_package_fallback fallbackSeverity
    "App" "App" "com.a" "crash" "hang" "t1" "t2" (by decide) (by decide) (by decide)

end RatComputation

/-! ### C7 -/

/-- C7 counterexample: the claim says every List query is ordered
newest-first and that supplying both a status filter and a package filter
returns exactly the bugs satisfying both.  With both filters supplied the
endpoint ignores `status` entirely — the `Verified` bug is returned although
the query asked for `Pending` — and the result is in insertion order
(oldest first), not newest-first. -/
theorem C7_counterexample :
    get_all_bugs_endpoint storeC7 (some .pending) (some "com.p") = [bugOld, bugNew] ∧
    bugOld.status ≠ .pending ∧
    ¬ createdGe bugOld bugNew := by
  refine ⟨by decide, by decide, ?_⟩
  intro hle
  have hlt : bugOld.created_at < bugNew.created_at := by
    rw [String.lt_iff_toList_lt]
    decide
  exact absurd hle (not_le.mpr hlt)

/-- C7 as amended: the unfiltered query returns all bugs ordered
newest-`created_at`-first; a query with a non-empty `app_package` returns
exactly the bugs with that package, in insertion order, ignoring any
supplied status filter; a query with only a status returns exactly the bugs
with that status, in insertion order. -/
theorem C7_list_query (st : Store) (s : VerificationStatus) (p : String) :
    ((get_all_bugs_endpoint st none none).Perm st.bugs ∧
      List.Sorted createdGe (get_all_bugs_endpoint st none none)) ∧
    (p ≠ "" → ∀ sOpt : Option VerificationStatus,
      get_all_bugs_endpoint st sOpt (some p) =
        st.bugs.filter (fun b => b.app_package == p)) ∧
    (get_all_bugs_endpoint st (some s) none =
      st.bugs.filter (fun b => b.status == s)) := by
  refine ⟨⟨?_, ?_⟩, ?_, ?_⟩
  · exact List.perm_insertionSort createdGe st.bugs
  · exact List.sorted_insertionSort createdGe st.bugs
  · intro hp sOpt
    have hpe : p.isEmpty = false :=
      Bool.eq_false_iff.mpr (fun h => hp ((String.isEmpty_iff p).mp h))
    simp [get_all_bugs_endpoint, isTruthyOptStr, hpe, get_by_app]
  · rfl

/-! ### Verification pipeline lemmas (shared by C4, C5, C9) -/

lemma data_ne_nil_left (a b : String) (ha : a.data ≠ []) : (a ++ b).data ≠ [] := by
  rw [String.data_append]
  intro h
  exact ha (List.append_eq_nil.mp h).1

lemma obs_data_ne_nil (x : DeviceResult) :
    ("[" ++ x.device ++ "] " ++ x.observations).data ≠ [] :=
  data_ne_nil_left _ _ (data_ne_nil_left _ _ (data_ne_nil_left _ _ (by decide)))

lemma pyJoin_cons_ne_empty (sep x : String) (xs : List String) (hx : x.data ≠ []) :
    pyJoin sep (x :: xs) ≠ "" := by
  cases xs with
  | nil =>
      intro h
      exact hx (by rw [show x = "" from h])
  | cons y ys =>
      intro h
      have h2 : (x ++ sep ++ pyJoin sep (y :: ys)).data = [] := by
        rw [show x ++ sep ++ pyJoin sep (y :: ys) = pyJoin sep (x :: y :: ys) from rfl, h]
      exact data_ne_nil_left _ _ (data_ne_nil_left _ _ hx) h2

/-- The notes handed to `update_status` by the consensus engine — the
device-name-prefixed observations joined by blank lines — are never the empty
string when at least one device was tested. -/
lemma obs_join_ne_empty (d : DeviceInfo) (ds : List DeviceInfo)
    (oracle : String → Except String VerificationResult) :
    pyJoin "\n\n" (((d :: ds).map (test_on_device oracle)).map
      (fun x => "[" ++ x.device ++ "] " ++ x.observations)) ≠ "" := by
  rw [List.map_cons, List.map_cons]
  exact pyJoin_cons_ne_empty _ _ _ (obs_data_ne_nil (test_on_device oracle d))

lemma update_verification_summary_record_eq_ok (l pers : List DeveloperBug)
    (bug_id : String) (vs : VerificationSummary) (b : DeveloperBug)
    (h : findBug l bug_id = some b) :
    update_verification_summary { bugs := l, persisted := pers } bug_id vs =
      .ok { bugs := updateBugList l bug_id (fun x => { x with verification_summary := some vs }),
            persisted := sortDesc (updateBugList l bug_id
              (fun x => { x with verification_summary := some vs })) } := by
  simp [update_verification_summary, getBug, h]

/-- Closed form of one consensus run on a non-empty device list against a
stored bug: the fan-out results, aggregation, summary, status update and
summary attachment, exactly as `verify_bug_on_all_devices` computes them. -/
lemma verify_run_eq (oracle : String → Except String VerificationResult)
    (d : DeviceInfo) (ds : List DeviceInfo) (st : Store) (bug : DeveloperBug)
    (now : String) (b : DeveloperBug) (hb : getBug st bug.id = some b) :
    verify_bug_on_all_devices oracle (d :: ds) st bug now =
      (let results := (d :: ds).map (test_on_device oracle)
       let n := results.length
       let r := (results.filter (fun x => x.reproduced)).length
       let nr := n - r
       let all_steps := (results.map (fun x => x.steps)).flatten
       let steps := if all_steps.isEmpty then defaultSteps else all_steps
       let confidence := if n = 1 then calculate_confidence (decide (0 < r)) steps.length
                         else multi_device_confidence r nr n
       let bug_verified := decide (nr < r)
       let status_str := if bug_verified then "verified" else "not_reproducible"
       let device_list := pyJoin ", " (results.map (fun x => x.device))
       let summary_text :=
         "Bug " ++ (if bug_verified then "reproduced" else "not reproduced") ++ " on " ++
         toString r ++ "/" ++ toString n ++ " devices (" ++ device_list ++
         "). Executed " ++ toString steps.length ++ " verification steps. Confidence: " ++
         confidence ++ "."
       let vs : VerificationSummary :=
         { timestamp := now, status := status_str, steps := steps,
           result := pyJoin "\n\n" (results.map (fun x => "[" ++ x.device ++ "] " ++ x.observations)),
           devices_tested := n, reproduced := r, not_reproduced := nr,
           confidence := confidence, summary := summary_text, device_name := device_list }
       let l1 := updateBugList st.bugs bug.id
         (applyStatusUpdate (if bug_verified then .verified else .not_reproducible) vs.result now)
       let l2 := updateBugList l1 bug.id (fun x => { x with verification_summary := some vs })
       some ({ status := status_str, message := summary_text, devices_tested := n,
               reproduced := r, not_reproduced := nr, verification_summary := vs },
             { bugs := l2, persisted := sortDesc l2 })) := by
  simp only [verify_bug_on_all_devices]
  rw [if_neg (by simp)]
  rw [update_status_eq_ok _ _ _ hb]
  simp only [Except.toOption, Option.bind]
  rw [update_verification_summary_record_eq_ok _ _ _ _ _
    (findBug_updateBugList (f := applyStatusUpdate _ _ now) hb (fun x => rfl))]
  simp only [Except.toOption, Option.map]

/-- Witness for C7 as amended, at the same concrete store. -/
theorem C7_list_query_witness :
    ((get_all_bugs_endpoint storeC7 none none).Perm storeC7.bugs ∧
      List.Sorted createdGe (get_all_bugs_endpoint storeC7 none none)) ∧
    ((get_all_bugs_endpoint storeC7 (some .pending) (some "com.p") =
        storeC7.bugs.filter (fun b => b.app_package == "com.p")) ∧
      (get_all_bugs_endpoint storeC7 (some .pending) none =
        storeC7.bugs.filter (fun b => b.status == .pending))) :=
  ⟨(C7_list_query storeC7 .pending "com.p").1,
   (C7_list_query storeC7 .pending "com.p").2.1 (by decide) (some .pending),
   (C7_list_query storeC7 .pending "com.p").2.2⟩

/-! ### C4 -/

/-- C4: for a multi-target run with `n` targets of which `r` reproduce and
`nr = n - r` do not, the bug is judged reproduced exactly when `r > nr` (a
tie resolves to not reproduced), the returned payload carries the counts, and
the store ends up with the bug `Verified` exactly when the majority decision
is reproduced and `NotReproducible` otherwise, with the concatenated
name-prefixed per-target observations written as its notes; the collection is
persisted. -/
theorem C4_majority_vote (oracle : String → Except String VerificationResult)
    (devices : List DeviceInfo) (st : Store) (bug : DeveloperBug) (now : String)
    (b : DeveloperBug) (hdev : devices ≠ []) (hb : getBug st bug.id = some b) :
    ∃ ret st2, verify_bug_on_all_devices oracle devices st bug now = some (ret, st2) ∧
      (ret.status = "verified" ↔
        devices.length - reproducedCount oracle devices < reproducedCount oracle devices) ∧
      ret.devices_tested = devices.length ∧
      ret.reproduced = reproducedCount oracle devices ∧
      ret.not_reproduced = devices.length - reproducedCount oracle devices ∧
      ∃ b2, getBug st2 bug.id = some b2 ∧
        b2.status =
          (if devices.length - reproducedCount oracle devices < reproducedCount oracle devices
           then VerificationStatus.verified else VerificationStatus.not_reproducible) ∧
        b2.notes = pyJoin "\n\n" ((deviceResults oracle devices).map
          (fun x => "[" ++ x.device ++ "] " ++ x.observations)) ∧
        st2.persisted = sortDesc st2.bugs := by
  obtain ⟨d, ds, rfl⟩ := List.exists_cons_of_ne_nil hdev
  rw [verify_run_eq oracle d ds st bug now b hb]
  have hlen : ((d :: ds).map (test_on_device oracle)).length = (d :: ds).length :=
    List.length_map ..
  refine ⟨_, _, rfl, ?_, ?_, ?_, ?_,
    ⟨_, findBug_updateBugList (findBug_updateBugList hb (fun x => rfl)) (fun x => rfl),
     ?_, ?_, rfl⟩⟩
  · simp only [reproducedCount, deviceResults, hlen, decide_eq_true_eq]
    split <;> simp_all
  · exact hlen
  · rfl
  · simp only [reproducedCount, deviceResults, hlen]
  · simp only [reproducedCount, deviceResults, hlen, applyStatusUpdate, decide_eq_true_eq]
  · simp only [applyStatusUpdate, deviceResults]
    rw [if_neg (obs_join_ne_empty d ds oracle)]

/-- Witness for C4: three devices, two reproduce — majority verdict
`verified`, counts 2 and 1, notes written. -/
theorem C4_majority_vote_witness :
    ∃ ret st2, verify_bug_on_all_devices oracleW devicesW storeW bugW "t7" = some (ret, st2) ∧
      (ret.status = "verified" ↔
        devicesW.length - reproducedCount oracleW devicesW < reproducedCount oracleW devicesW) ∧
      ret.devices_tested = devicesW.length ∧
      ret.reproduced = reproducedCount oracleW devicesW ∧
      ret.not_reproduced = devicesW.length - reproducedCount oracleW devicesW ∧
      ∃ b2, getBug st2 bugW.id = some b2 ∧
        b2.status =
          (if devicesW.length - reproducedCount oracleW devicesW < reproducedCount oracleW devicesW
           then VerificationStatus.verified else VerificationStatus.not_reproducible) ∧
        b2.notes = pyJoin "\n\n" ((deviceResults oracleW devicesW).map
          (fun x => "[" ++ x.device ++ "] " ++ x.observations)) ∧
        st2.persisted = sortDesc st2.bugs :=
  C4_majority_vote oracleW devicesW storeW bugW "t7" bugW (by decide) (by rfl)

/-! ### C5 -/

/-- C5: the confidence label.  With exactly one target the label comes from
`calculate_confidence`: reproduced with at least 3 steps HIGH, at least 1
step MEDIUM, else LOW; not reproduced with at least 5 steps HIGH, at least 2
MEDIUM, else LOW.  With more than one target it comes from the agreement
rate `max(r, nr) / n`: at least 0.8 HIGH, at least 0.5 MEDIUM, else LOW.
The last conjunct ties both to the consensus run itself. -/
theorem C5_confidence :
    (∀ c : Nat,
      (3 ≤ c → calculate_confidence true c = "HIGH") ∧
      (1 ≤ c ∧ c < 3 → calculate_confidence true c = "MEDIUM") ∧
      (c < 1 → calculate_confidence true c = "LOW") ∧
      (5 ≤ c → calculate_confidence false c = "HIGH") ∧
      (2 ≤ c ∧ c < 5 → calculate_confidence false c = "MEDIUM") ∧
      (c < 2 → calculate_confidence false c = "LOW")) ∧
    (∀ r nr n : Nat,
      ((8 : ℚ) / 10 ≤ (max r nr : ℚ) / (n : ℚ) →
        multi_device_confidence r nr n = "HIGH") ∧
      ((5 : ℚ) / 10 ≤ (max r nr : ℚ) / (n : ℚ) →
        ¬((8 : ℚ) / 10 ≤ (max r nr : ℚ) / (n : ℚ)) →
        multi_device_confidence r nr n = "MEDIUM") ∧
      (¬((5 : ℚ) / 10 ≤ (max r nr : ℚ) / (n : ℚ)) →
        multi_device_confidence r nr n = "LOW")) ∧
    (∀ (oracle : String → Except String VerificationResult) (devices : List DeviceInfo)
      (st : Store) (bug : DeveloperBug) (now : String) (b : DeveloperBug),
      devices ≠ [] → getBug st bug.id = some b →
      ∃ ret st2, verify_bug_on_all_devices oracle devices st bug now = some (ret, st2) ∧
        ret.verification_summary.confidence =
          (if devices.length = 1 then
            calculate_confidence (decide (0 < reproducedCount oracle devices))
              (stepsCollected oracle devices).length
           else multi_device_confidence (reproducedCount oracle devices)
             (devices.length - reproducedCount oracle devices) devices.length)) := by
  refine ⟨?_, ?_, ?_⟩
  · intro c
    refine ⟨?_, ?_, ?_, ?_, ?_, ?_⟩
    · intro h
      simp [calculate_confidence, h]
    · intro h
      have h3 : ¬ 3 ≤ c := by omega
      simp [calculate_confidence, h.1, h3]
    · intro h
      have h3 : ¬ 3 ≤ c := by omega
      have h1 : ¬ 1 ≤ c := by omega
      simp [calculate_confidence, h3, h1]
    · intro h
      simp [calculate_confidence, h]
    · intro h
      have h5 : ¬ 5 ≤ c := by omega
      simp [calculate_confidence, h.1, h5]
    · intro h
      have h5 : ¬ 5 ≤ c := by omega
      have h2 : ¬ 2 ≤ c := by omega
      simp [calculate_confidence, h5, h2]
  · intro r nr n
    refine ⟨?_, ?_, ?_⟩
    · intro h
      simp only [multi_device_confidence]
      rw [if_pos h]
    · intro h5 h8
      simp only [multi_device_confidence]
      rw [if_neg h8, if_pos h5]
    · intro h5
      simp only [multi_device_confidence]
      rw [if_neg (fun h8 => h5 (le_trans (by norm_num) h8)), if_neg h5]
  · intro oracle devices st bug now b hdev hb
    obtain ⟨d, ds, rfl⟩ := List.exists_cons_of_ne_nil hdev
    rw [verify_run_eq oracle d ds st bug now b hb]
    have hlen : ((d :: ds).map (test_on_device oracle)).length = (d :: ds).length :=
      List.length_map ..
    refine ⟨_, _, rfl, ?_⟩
    simp only [reproducedCount, deviceResults, stepsCollected, defaultSteps, hlen]

/-- Witness for C5: the three confidence rules at concrete values, and the
concrete three-device run carrying the multi-device label. -/
theorem C5_confidence_witness :
    calculate_confidence true 4 = "HIGH" ∧
    multi_device_confidence 2 1 3 = "MEDIUM" ∧
    (∃ ret st2, verify_bug_on_all_devices oracleW devicesW storeW bugW "t7" = some (ret, st2) ∧
      ret.verification_summary.confidence =
        (if devicesW.length = 1 then
          calculate_confidence (decide (0 < reproducedCount oracleW devicesW))
            (stepsCollected oracleW devicesW).length
         else multi_device_confidence (reproducedCount oracleW devicesW)
           (devicesW.length - reproducedCount oracleW devicesW) devicesW.length)) := by
  refine ⟨(C5_confidence.1 4).1 (by decide),
          (C5_confidence.2.1 2 1 3).2.1 (by norm_num) (by norm_num),
          C5_confidence.2.2 oracleW devicesW storeW bugW "t7" bugW (by decide) (by rfl)⟩

/-! ### C9 -/

lemma length_sub_filter (p : DeviceResult → Bool) (l : List DeviceResult) :
    l.length - (l.filter p).length = (l.filter (fun x => !p x)).length := by
  induction l with
  | nil => rfl
  | cons x xs ih =>
      have hle := List.length_filter_le p xs
      by_cases hx : p x <;> simp [List.filter_cons, hx] <;> omega

/-- C9: a target whose oracle invocation raises is converted into a
non-reproduced outcome carrying the error text as its narrative; each
target's outcome depends only on its own oracle answer (so the others are
unaffected); and the consensus run still completes and returns, with the
converted failure included in the aggregate not-reproduced count. -/
theorem C9_oracle_failure_isolated (oracle : String → Except String VerificationResult)
    (devices : List DeviceInfo) (st : Store) (bug : DeveloperBug) (now : String)
    (b : DeveloperBug) (d : DeviceInfo) (e : String)
    (hdev : devices ≠ []) (hb : getBug st bug.id = some b)
    (hd : d ∈ devices) (he : oracle d.serial = .error e) :
    test_on_device oracle d =
      { device := d.name, serial := d.serial, reproduced := false, steps := [],
        observations := "Error: " ++ e } ∧
    (∀ (d2 : DeviceInfo) (oracle2 : String → Except String VerificationResult),
      oracle2 d2.serial = oracle d2.serial →
      test_on_device oracle2 d2 = test_on_device oracle d2) ∧
    (∃ ret st2, verify_bug_on_all_devices oracle devices st bug now = some (ret, st2) ∧
      ret.devices_tested = devices.length ∧
      test_on_device oracle d ∈ deviceResults oracle devices ∧
      ret.not_reproduced =
        ((deviceResults oracle devices).filter (fun x => !x.reproduced)).length ∧
      1 ≤ ret.not_reproduced) := by
  refine ⟨by simp [test_on_device, he], ?_, ?_⟩
  · intro d2 oracle2 h2
    simp [test_on_device, h2]
  · obtain ⟨dh, ds, rfl⟩ := List.exists_cons_of_ne_nil hdev
    rw [verify_run_eq oracle dh ds st bug now b hb]
    have hlen : ((dh :: ds).map (test_on_device oracle)).length = (dh :: ds).length :=
      List.length_map ..
    have hmem : test_on_device oracle d ∈ deviceResults oracle (dh :: ds) :=
      List.mem_map_of_mem (test_on_device oracle) hd
    refine ⟨_, _, rfl, hlen, hmem, ?_, ?_⟩
    · exact length_sub_filter _ _
    · have hdfalse : (test_on_device oracle d).reproduced = false := by
        simp [test_on_device, he]
      have hmem2 : test_on_device oracle d ∈
          ((dh :: ds).map (test_on_device oracle)).filter (fun x => !x.reproduced) :=
        List.mem_filter.mpr ⟨hmem, by simp [hdfalse]⟩
      calc 1 ≤ (((dh :: ds).map (test_on_device oracle)).filter (fun x => !x.reproduced)).length :=
            List.length_pos.mpr (List.ne_nil_of_mem hmem2)
        _ = _ := (length_sub_filter _ _).symm

/-- Witness for C9: the second of three devices raises; its failure is
converted, counted, and the run completes. -/
theorem C9_oracle_failure_isolated_witness :
    test_on_device oracleFailW { serial := "s2", name := "Nexus" } =
      { device := "Nexus", serial := "s2", reproduced := false, steps := [],
        observations := "Error: " ++ "adb connection timeout" } ∧
    (∀ (d2 : DeviceInfo) (oracle2 : String → Except String VerificationResult),
      oracle2 d2.serial = oracleFailW d2.serial →
      test_on_device oracle2 d2 = test_on_device oracleFailW d2) ∧
    (∃ ret st2, verify_bug_on_all_devices oracleFailW devicesW storeW bugW "t8" = some (ret, st2) ∧
      ret.devices_tested = devicesW.length ∧
      test_on_device oracleFailW { serial := "s2", name := "Nexus" } ∈
        deviceResults oracleFailW devicesW ∧
      ret.not_reproduced =
        ((deviceResults oracleFailW devicesW).filter (fun x => !x.reproduced)).length ∧
      1 ≤ ret.not_reproduced) :=
  C9_oracle_failure_isolated oracleFailW devicesW storeW bugW "t8" bugW
    { serial := "s2", name := "Nexus" } "adb connection timeout"
    (by decide) (by rfl) (by decide) (by rfl)

end Provify
